import Mathlib

/-!
Shallow embedding of `src/function_app.py` (an Azure Functions app exposing
MCP tool handlers `whoAmI` and `kustoQuery`), together with a spec-modelled
`getRecentActiveFunctionApps` handler.

Python JSON values are modelled by the inductive `Json`; Python truthiness by
`truthy`.  External library calls (`json.loads`, `base64.b64decode`,
`urllib.parse.unquote`, `requests.get`, the Kusto client, credential
acquisition) are modelled as oracle fields of environment records, each
returning `Except` to model the possibility of a raised exception whose
`str(e)` text is the error payload.  Handler bodies are embedded as total
functions that thread these oracles; the `try/except` wrappers of the source
appear as an explicit `...Try` body plus a catching wrapper.
-/

/-- A parsed JSON value, as produced by Python's `json.loads`. -/
inductive Json where
  | null
  | bool (b : Bool)
  | num (n : Int)
  | str (s : String)
  | arr (xs : List Json)
  | obj (fields : List (String × Json))

/-- Python truthiness (`bool(x)`) on JSON values: `None`, `False`, `0`,
empty strings, empty lists and empty dicts are falsy. -/
def truthy : Json → Bool
  | Json.null => false
  | Json.bool b => b
  | Json.num n => n != 0
  | Json.str s => !s.isEmpty
  | Json.arr xs => !xs.isEmpty
  | Json.obj fs => !fs.isEmpty

/-- Python truthiness of an `os.getenv` result (`None` or a string). -/
def optStrTruthy : Option String → Bool
  | none => false
  | some s => !s.isEmpty

mutual

/-- Python `repr` of a JSON value (used by `str` on containers). -/
def pyRepr : Json → String
  | Json.null => "None"
  | Json.bool true => "True"
  | Json.bool false => "False"
  | Json.num n => toString n
  | Json.str s => "\x27" ++ s ++ "\x27"
  | Json.arr xs => "[" ++ pyReprItems xs ++ "]"
  | Json.obj fs => "\x7b" ++ pyReprFields fs ++ "\x7d"

/-- Comma-separated `repr`s of list items. -/
def pyReprItems : List Json → String
  | [] => ""
  | [x] => pyRepr x
  | x :: y :: rest => pyRepr x ++ ", " ++ pyReprItems (y :: rest)

/-- Comma-separated `repr`s of dict entries. -/
def pyReprFields : List (String × Json) → String
  | [] => ""
  | [(k, v)] => "\x27" ++ k ++ "\x27: " ++ pyRepr v
  | (k, v) :: y :: rest => "\x27" ++ k ++ "\x27: " ++ pyRepr v ++ ", " ++ pyReprFields (y :: rest)

end

/-- Python `str(x)` on a JSON value (as interpolated by an f-string). -/
def pyStr : Json → String
  | Json.str s => s
  | j => pyRepr j

/-- Python `d.get(key, default)`: succeeds on dicts, raises `AttributeError`
on any non-dict value (modelled error text). -/
def pyGetD : Json → String → Json → Except String Json
  | Json.obj fs, k, d => Except.ok ((fs.lookup k).getD d)
  | _, _, _ => Except.error "AttributeError: object has no attribute get"

/-- Pure dict lookup with default; non-dicts give the default.  Used by the
spec-modelled handler, where Python-exception fidelity is not required. -/
def objGetD : Json → String → Json → Json
  | Json.obj fs, k, d => (fs.lookup k).getD d
  | _, _, d => d

/-- The scope string requested for the Microsoft Graph audience. -/
def graphScope : String := "https://graph.microsoft.com/.default"

/-- The scope string requested for the Kusto (analytics-engine) audience. -/
def kustoScope : String := "https://help.kusto.windows.net/.default"

/-- The ambient environment read by the token helpers: the EasyAuth header
variable `HTTP_X_MS_TOKEN_AAD_ACCESS_TOKEN` and the `DefaultAzureCredential`
oracle (`credGetToken scope` models `credential.get_token(scope).token`,
which may raise). -/
structure TokenEnv where
  easyAuthToken : Option String
  credGetToken : String → Except String String

/-- Source `get_access_token`: returns the ambient EasyAuth token
verbatim when the variable is truthy, otherwise acquires a credential token
scoped to the Graph audience. -/
def get_access_token (env : TokenEnv) : Except String String :=
  if optStrTruthy env.easyAuthToken then
    Except.ok (env.easyAuthToken.getD "")
  else
    env.credGetToken graphScope

/-- Source `get_kusto_access_token`: returns the ambient EasyAuth
token verbatim when the variable is truthy, otherwise acquires a credential
token scoped to the Kusto audience. -/
def get_kusto_access_token (env : TokenEnv) : Except String String :=
  if optStrTruthy env.easyAuthToken then
    Except.ok (env.easyAuthToken.getD "")
  else
    env.credGetToken kustoScope

/-- Source `format_user_info`.  The Python parameters are untyped at
runtime; the `email`/`include_email` arguments receive JSON values in the
handlers, so both are modelled as `Json` and checked for truthiness, and
f-string conversion is modelled by `pyStr`. -/
def format_user_info (display_name : Json) (email : Json) (include_email : Json) : String :=
  if truthy include_email && truthy email then
    pyStr display_name ++ " (" ++ pyStr email ++ ")"
  else
    pyStr display_name

/-- Source `decode_query`: percent-decode via the `unquote` oracle;
if decoding raises, return the encoded string unchanged. -/
def decode_query (unquote : String → Except String String) (encoded_query : String) : String :=
  match unquote encoded_query with
  | Except.ok d => d
  | Except.error _ => encoded_query

/-- An HTTP response as seen through `requests`: status code, body text, and
the result of `.json()` (which raises on a non-JSON body). -/
structure HttpResponse where
  status_code : Int
  text : String
  jsonBody : Except String Json

/-- The world read by the `whoAmI` handler: the two EasyAuth environment
variables, the credential oracle, a `json.loads` oracle, a
`base64.b64decode(...).decode` oracle, and a `requests.get` oracle taking the
bearer token carried in the request headers. -/
structure WhoAmIEnv where
  easyAuthToken : Option String
  clientPrincipal : Option String
  credGetToken : String → Except String String
  parseJson : String → Except String Json
  b64decode : String → Except String String
  graphGet : String → Except String HttpResponse

/-- The `TokenEnv` visible to `get_access_token` inside `who_am_i`. -/
def WhoAmIEnv.tokenEnv (env : WhoAmIEnv) : TokenEnv :=
  { easyAuthToken := env.easyAuthToken, credGetToken := env.credGetToken }

/-- The `try:` body of `who_am_i`: `Except.error e` models an exception with
text `e` escaping the body, `Except.ok s` a normal `return s`. -/
def whoAmITry (env : WhoAmIEnv) (context : String) : Except String String :=
  match env.parseJson context with
  | Except.error e => Except.error e
  | Except.ok content =>
    match pyGetD content "arguments" (Json.obj []) with
    | Except.error e => Except.error e
    | Except.ok args =>
      match pyGetD args "includeEmail" (Json.bool false) with
      | Except.error e => Except.error e
      | Except.ok include_email =>
        if optStrTruthy env.easyAuthToken then
          match env.clientPrincipal with
          | none => Except.ok "No user principal found in EasyAuth headers"
          | some p =>
            if p.isEmpty then Except.ok "No user principal found in EasyAuth headers"
            else
              match env.b64decode p with
              | Except.error e => Except.error e
              | Except.ok decoded =>
                match env.parseJson decoded with
                | Except.error e => Except.error e
                | Except.ok principal_data =>
                  match pyGetD principal_data "name" (Json.str "Unknown User") with
                  | Except.error e => Except.error e
                  | Except.ok display_name =>
                    match pyGetD principal_data "email" Json.null with
                    | Except.error e => Except.error e
                    | Except.ok email =>
                      Except.ok (format_user_info display_name email include_email)
        else
          match get_access_token env.tokenEnv with
          | Except.error e => Except.error e
          | Except.ok access_token =>
            match env.graphGet access_token with
            | Except.error e => Except.error e
            | Except.ok response =>
              if response.status_code ≠ 200 then
                Except.ok ("Failed to get user info: " ++ toString response.status_code
                  ++ " - " ++ response.text)
              else
                match response.jsonBody with
                | Except.error e => Except.error e
                | Except.ok user_info =>
                  match pyGetD user_info "displayName" (Json.str "Unknown User") with
                  | Except.error e => Except.error e
                  | Except.ok display_name =>
                    match pyGetD user_info "mail" Json.null with
                    | Except.error e => Except.error e
                    | Except.ok mail =>
                      match pyGetD user_info "userPrincipalName" Json.null with
                      | Except.error e => Except.error e
                      | Except.ok upn =>
                        let email := if truthy mail then mail else upn
                        Except.ok (format_user_info display_name email include_email)

/-- The `who_am_i` handler: the try body plus the catch-all that converts any
exception into `"Error determining user identity: <text>"`. -/
def who_am_i (env : WhoAmIEnv) (context : String) : String :=
  match whoAmITry env context with
  | Except.ok s => s
  | Except.error e => "Error determining user identity: " ++ e

/-- An exception escaping the `kusto_query` body: either a
`KustoServiceError` raised by the client, or any other Python exception. -/
inductive KustoErr where
  | service (msg : String)
  | generic (msg : String)

/-- The primary result table of a Kusto response: column names plus rows of
values. -/
structure KustoTable where
  columns : List String
  rows : List (List Json)

/-- Observable side steps of the `kusto_query` body, used to state that a
given run performed no decoding, token acquisition, or remote call. -/
inductive KustoEffect where
  | decodeQuery
  | acquireToken
  | executeQuery
deriving DecidableEq

/-- The world read by the `kustoQuery` handler: the EasyAuth token variable,
the two Kusto configuration variables, the credential, `json.loads` and
`urllib.parse.unquote` oracles, the Kusto client oracle
(`kustoExec clusterUrl token database query`), and a `json.dumps` oracle for
the final serialization (total: `default=str` stringifies everything). -/
structure KustoEnv where
  easyAuthToken : Option String
  clusterUrl : Option String
  databaseName : Option String
  credGetToken : String → Except String String
  parseJson : String → Except String Json
  unquote : String → Except String String
  kustoExec : String → String → String → String → Except KustoErr KustoTable
  jsonDumps : List (List (String × Json)) → String

/-- The `TokenEnv` visible to `get_kusto_access_token` inside `kusto_query`. -/
def KustoEnv.tokenEnv (env : KustoEnv) : TokenEnv :=
  { easyAuthToken := env.easyAuthToken, credGetToken := env.credGetToken }

/-- One iteration level of the result-processing loop:
`row_dict[column.column_name] = row[i]` for each column index `i`; an index
past the end of the row raises `IndexError`. -/
def rowToDict : List String → List Json → Except String (List (String × Json))
  | [], _ => Except.ok []
  | c :: cs, v :: vs =>
    match rowToDict cs vs with
    | Except.ok rest => Except.ok ((c, v) :: rest)
    | Except.error e => Except.error e
  | _ :: _, [] => Except.error "IndexError: list index out of range"

/-- The result-processing loop over all rows of the primary table. -/
def rowsToDicts (t : KustoTable) : Except String (List (List (String × Json))) :=
  t.rows.foldr
    (fun row acc =>
      match rowToDict t.columns row, acc with
      | Except.ok d, Except.ok ds => Except.ok (d :: ds)
      | Except.error e, _ => Except.error e
      | _, Except.error e => Except.error e)
    (Except.ok [])

/-- The `try:` body of `kusto_query`, paired with the list of observable
effects it performed.  `Except.error` models an exception escaping the body;
`Except.ok s` a normal `return s`.  A truthy non-string `query` argument is
modelled as raising a generic `TypeError` after the decode attempt (in the
source, `urllib.parse.unquote` raises inside `decode_query`, which swallows
it and returns the value as-is, and the subsequent string operations raise). -/
def kustoQueryTry (env : KustoEnv) (context : String) :
    Except KustoErr String × List KustoEffect :=
  match env.parseJson context with
  | Except.error e => (Except.error (KustoErr.generic e), [])
  | Except.ok content =>
    match pyGetD content "arguments" (Json.obj []) with
    | Except.error e => (Except.error (KustoErr.generic e), [])
    | Except.ok args =>
      match pyGetD args "query" Json.null with
      | Except.error e => (Except.error (KustoErr.generic e), [])
      | Except.ok encoded_query =>
        if !truthy encoded_query then
          (Except.ok "Error: No query provided in the request", [])
        else
          match encoded_query with
          | Json.str s =>
            let query := decode_query env.unquote s
            if !optStrTruthy env.clusterUrl then
              (Except.ok "Error: KUSTO_CLUSTER_URL environment variable is not set",
               [KustoEffect.decodeQuery])
            else if !optStrTruthy env.databaseName then
              (Except.ok "Error: KUSTO_DATABASE_NAME environment variable is not set",
               [KustoEffect.decodeQuery])
            else
              match get_kusto_access_token env.tokenEnv with
              | Except.error e =>
                (Except.error (KustoErr.generic e),
                 [KustoEffect.decodeQuery, KustoEffect.acquireToken])
              | Except.ok access_token =>
                match env.kustoExec (env.clusterUrl.getD "") access_token
                    (env.databaseName.getD "") query with
                | Except.error err =>
                  (Except.error err,
                   [KustoEffect.decodeQuery, KustoEffect.acquireToken,
                    KustoEffect.executeQuery])
                | Except.ok table =>
                  match rowsToDicts table with
                  | Except.error e =>
                    (Except.error (KustoErr.generic e),
                     [KustoEffect.decodeQuery, KustoEffect.acquireToken,
                      KustoEffect.executeQuery])
                  | Except.ok results =>
                    (Except.ok (env.jsonDumps results),
                     [KustoEffect.decodeQuery, KustoEffect.acquireToken,
                      KustoEffect.executeQuery])
          | _ =>
            (Except.error (KustoErr.generic "TypeError: query is not a string"),
             [KustoEffect.decodeQuery])

/-- The `kusto_query` handler: the try body plus the two `except` clauses,
which catch `KustoServiceError` and generic exceptions separately. -/
def kusto_query (env : KustoEnv) (context : String) : String :=
  match (kustoQueryTry env context).1 with
  | Except.ok s => s
  | Except.error (KustoErr.service e) => "Kusto service error: " ++ e
  | Except.error (KustoErr.generic e) => "Error executing Kusto query: " ++ e

/-- The effects performed by a run of `kusto_query`. -/
def kustoQueryEffects (env : KustoEnv) (context : String) : List KustoEffect :=
  (kustoQueryTry env context).2

/-- Modelled from the spec: the `limit` coercion of
`getRecentActiveFunctionApps` (absent from src/) — "limit parsed as integer,
non-positive or unparsable silently replaced with default 100". -/
def pyToInt : Json → Option Int
  | Json.num n => some n
  | Json.str s => s.toInt?
  | Json.bool b => some (if b then 1 else 0)
  | _ => none

/-- Modelled from the spec: the effective result limit — parse as integer,
replacing a non-positive or unparsable value with the default 100. -/
def effectiveLimit (limit : Json) : Int :=
  match pyToInt limit with
  | some n => if n ≤ 0 then 100 else n
  | none => 100

/-- Modelled from the spec: the QueryBuilder template of
`getRecentActiveFunctionApps` (absent from src/) — a fixed multi-line query
with a partition-date filter, two boolean flags, an exact subscription match
interpolated without escaping, a dedup by site name, and a take clause. -/
def generate_function_apps_query (start_time subscription_id : String) (limit : Int) : String :=
  "FunctionApps"
    ++ "\n| where PartitionDate >= datetime(" ++ start_time ++ ")"
    ++ "\n| where IsFunctionApp == true"
    ++ "\n| where IsActive == true"
    ++ "\n| where SubscriptionId == \x27" ++ subscription_id ++ "\x27"
    ++ "\n| summarize arg_max(PartitionDate, *) by SiteName"
    ++ "\n| take " ++ toString limit

/-- Modelled from the spec: the world of `getRecentActiveFunctionApps`
(absent from src/) — a `json.loads` oracle, the TimeRangeParser (abstracted,
since its output depends on the current time), and the QueryExecutor. -/
structure FuncAppsEnv where
  parseJson : String → Except String Json
  timeRangeParse : String → String
  queryExecute : String → String

/-- Modelled from the spec: the `getRecentActiveFunctionApps` tool handler
(absent from src/) — "subscriptionId required (absence →
`\"Error: subscriptionId parameter is required\"`); limit parsed as integer,
non-positive or unparsable silently replaced with default 100; else
TimeRangeParser + QueryBuilder + QueryExecutor", with the catch-all policy of
§7 collapsing failures to a descriptive string. -/
def get_recent_active_function_apps (env : FuncAppsEnv) (context : String) : String :=
  match env.parseJson context with
  | Except.error e => "Error executing function apps query: " ++ e
  | Except.ok content =>
    let args := objGetD content "arguments" (Json.obj [])
    let subscription_id := objGetD args "subscriptionId" Json.null
    if !truthy subscription_id then
      "Error: subscriptionId parameter is required"
    else
      let time_range := pyStr (objGetD args "timeRange" (Json.str "7d"))
      let limit := effectiveLimit (objGetD args "limit" Json.null)
      let start_time := env.timeRangeParse time_range
      env.queryExecute
        (generate_function_apps_query start_time (pyStr subscription_id) limit)

/-- C5: `format_user_info` returns `"<display_name> (<email>)"` when
`include_email` is true and the email is present (non-`None`, non-empty),
and `display_name` alone otherwise; in particular on the three concrete
inputs of the claim. -/
theorem c5_format_user_info :
    (∀ (name e : String) (b : Bool),
      format_user_info (Json.str name) (Json.str e) (Json.bool b) =
        if b && !e.isEmpty then name ++ " (" ++ e ++ ")" else name)
    ∧ (∀ (name : String) (b : Bool),
      format_user_info (Json.str name) Json.null (Json.bool b) = name)
    ∧ format_user_info (Json.str "Alice") (Json.str "a@x.com") (Json.bool true)
        = "Alice (a@x.com)"
    ∧ format_user_info (Json.str "Alice") (Json.str "a@x.com") (Json.bool false)
        = "Alice"
    ∧ format_user_info (Json.str "Alice") Json.null (Json.bool true) = "Alice" := by
  refine ⟨?_, ?_, rfl, rfl, rfl⟩
  · intro name e b
    simp [format_user_info, truthy, pyStr]
  · intro name b
    simp [format_user_info, truthy, pyStr]

/-- C9: `decode_query` returns the decoded form produced by `unquote`, and
when decoding raises it returns the original encoded string unchanged. -/
theorem c9_decode_query :
    ∀ (unquote : String → Except String String) (s : String),
      (∀ d, unquote s = Except.ok d → decode_query unquote s = d)
      ∧ (∀ e, unquote s = Except.error e → decode_query unquote s = s) := by
  intro u s
  constructor
  · intro d h
    simp [decode_query, h]
  · intro e h
    simp [decode_query, h]

/-- Witness for C9 at concrete oracles: a successful decode and a raising
decode. -/
theorem c9_witness :
    decode_query (fun _ => Except.ok "a b") "a%20b" = "a b"
    ∧ decode_query (fun _ => Except.error "boom") "a%20b" = "a%20b" :=
  ⟨(c9_decode_query (fun _ => Except.ok "a b") "a%20b").1 "a b" rfl,
   (c9_decode_query (fun _ => Except.error "boom") "a%20b").2 "boom" rfl⟩

/-- C1 counterexample: with the ambient EasyAuth token present, both
`get_access_token` and `get_kusto_access_token` return that very same token,
so a token IS reused across the two audiences. -/
theorem c1_counterexample :
    get_access_token
        { easyAuthToken := some "ambient-token",
          credGetToken := fun _ => Except.error "no credential" }
      = Except.ok "ambient-token"
    ∧ get_kusto_access_token
        { easyAuthToken := some "ambient-token",
          credGetToken := fun _ => Except.error "no credential" }
      = Except.ok "ambient-token" := by
  constructor <;> rfl

/-- C1 (amended): only on the credential path are the two helpers scoped to
distinct audiences (Graph vs Kusto default scopes); on the EasyAuth path both
return the same ambient token, reusing it across audiences. -/
theorem c1_amended_tokens :
    (∀ (env : TokenEnv), optStrTruthy env.easyAuthToken = false →
      get_access_token env = env.credGetToken graphScope
      ∧ get_kusto_access_token env = env.credGetToken kustoScope)
    ∧ (∀ (env : TokenEnv) (t : String),
      env.easyAuthToken = some t → t.isEmpty = false →
      get_access_token env = Except.ok t
      ∧ get_kusto_access_token env = Except.ok t)
    ∧ graphScope ≠ kustoScope := by
  refine ⟨?_, ?_, by decide⟩
  · intro env h
    constructor <;> simp [get_access_token, get_kusto_access_token, h]
  · intro env t ht hne
    constructor <;> simp [get_access_token, get_kusto_access_token, optStrTruthy, ht, hne]

/-- Witness for C1's amended theorem: the two scoped credential tokens when
no ambient token is present, and the shared ambient token when one is. -/
theorem c1_witness :
    get_access_token { easyAuthToken := none, credGetToken := fun s => Except.ok s }
      = Except.ok graphScope
    ∧ get_kusto_access_token { easyAuthToken := none, credGetToken := fun s => Except.ok s }
      = Except.ok kustoScope
    ∧ get_access_token { easyAuthToken := some "tok", credGetToken := fun s => Except.ok s }
      = Except.ok "tok" := by
  obtain ⟨h1, h2, _⟩ := c1_amended_tokens
  exact ⟨(h1 { easyAuthToken := none, credGetToken := fun s => Except.ok s } rfl).1,
    (h1 { easyAuthToken := none, credGetToken := fun s => Except.ok s } rfl).2,
    (h2 { easyAuthToken := some "tok", credGetToken := fun s => Except.ok s } "tok" rfl rfl).1⟩

/-- C3: for every input envelope and every outcome of the oracles (including
malformed JSON and any exception raised inside the body), each handler
returns the body's string when it returns normally, and otherwise the caught
exception collapsed to an error-message string — no exception propagates and
no structured error is produced. -/
theorem c3_handlers_total_string :
    (∀ (env : WhoAmIEnv) (context : String),
      whoAmITry env context = Except.ok (who_am_i env context)
      ∨ ∃ e, whoAmITry env context = Except.error e
          ∧ who_am_i env context = "Error determining user identity: " ++ e)
    ∧ (∀ (env : KustoEnv) (context : String),
      (kustoQueryTry env context).1 = Except.ok (kusto_query env context)
      ∨ (∃ e, (kustoQueryTry env context).1 = Except.error (KustoErr.service e)
          ∧ kusto_query env context = "Kusto service error: " ++ e)
      ∨ (∃ e, (kustoQueryTry env context).1 = Except.error (KustoErr.generic e)
          ∧ kusto_query env context = "Error executing Kusto query: " ++ e)) := by
  constructor
  · intro env context
    cases h : whoAmITry env context with
    | ok s => left; simp [who_am_i, h]
    | error e =>
      right
      refine ⟨e, rfl, ?_⟩
      simp [who_am_i, h]
  · intro env context
    cases h : (kustoQueryTry env context).1 with
    | ok s => left; simp [kusto_query, h]
    | error e =>
      right
      cases e with
      | service m =>
        left
        refine ⟨m, rfl, ?_⟩
        simp [kusto_query, h]
      | generic m =>
        right
        refine ⟨m, rfl, ?_⟩
        simp [kusto_query, h]

/-- C4: when the argument bag of `kustoQuery` has no `query` key, the handler
returns exactly `"Error: No query provided in the request"` and performs no
decoding, token acquisition, or remote call. -/
theorem c4_kusto_missing_query :
    ∀ (env : KustoEnv) (context : String) (fields args : List (String × Json)),
      env.parseJson context = Except.ok (Json.obj fields) →
      (fields.lookup "arguments").getD (Json.obj []) = Json.obj args →
      args.lookup "query" = none →
      kusto_query env context = "Error: No query provided in the request"
      ∧ kustoQueryEffects env context = [] := by
  intro env context fields args h1 h2 h3
  constructor <;>
    simp [kusto_query, kustoQueryEffects, kustoQueryTry, h1, pyGetD, h2, h3, truthy]

/-- Witness for C4: a concrete envelope whose argument bag lacks
`subscriptionId`-style keys entirely. -/
theorem c4_witness :
    kusto_query
        { easyAuthToken := none, clusterUrl := none, databaseName := none,
          credGetToken := fun _ => Except.error "no cred",
          parseJson := fun _ => Except.ok (Json.obj [("arguments", Json.obj [])]),
          unquote := fun _ => Except.error "no decode",
          kustoExec := fun _ _ _ _ => Except.error (KustoErr.generic "no engine"),
          jsonDumps := fun _ => "" }
        "ctx"
      = "Error: No query provided in the request"
    ∧ kustoQueryEffects
        { easyAuthToken := none, clusterUrl := none, databaseName := none,
          credGetToken := fun _ => Except.error "no cred",
          parseJson := fun _ => Except.ok (Json.obj [("arguments", Json.obj [])]),
          unquote := fun _ => Except.error "no decode",
          kustoExec := fun _ _ _ _ => Except.error (KustoErr.generic "no engine"),
          jsonDumps := fun _ => "" }
        "ctx"
      = [] :=
  c4_kusto_missing_query _ "ctx" [("arguments", Json.obj [])] [] rfl rfl rfl

/-- C10: when the `query` argument is present but falsy (empty string,
`false`, `0`, ...), `kusto_query` returns exactly the same error string as
when the argument is absent. -/
theorem c10_kusto_falsy_query :
    ∀ (env : KustoEnv) (context : String) (fields args : List (String × Json)) (v : Json),
      env.parseJson context = Except.ok (Json.obj fields) →
      (fields.lookup "arguments").getD (Json.obj []) = Json.obj args →
      args.lookup "query" = some v →
      truthy v = false →
      kusto_query env context = "Error: No query provided in the request" := by
  intro env context fields args v h1 h2 h3 h4
  simp [kusto_query, kustoQueryTry, h1, pyGetD, h2, h3, h4]

/-- Witness for C10 at the three falsy values named by the claim: the empty
string, `false`, and `0`. -/
theorem c10_witness :
    kusto_query
        { easyAuthToken := none, clusterUrl := none, databaseName := none,
          credGetToken := fun _ => Except.error "no cred",
          parseJson := fun _ =>
            Except.ok (Json.obj [("arguments", Json.obj [("query", Json.str "")])]),
          unquote := fun _ => Except.error "no decode",
          kustoExec := fun _ _ _ _ => Except.error (KustoErr.generic "no engine"),
          jsonDumps := fun _ => "" }
        "ctx"
      = "Error: No query provided in the request"
    ∧ kusto_query
        { easyAuthToken := none, clusterUrl := none, databaseName := none,
          credGetToken := fun _ => Except.error "no cred",
          parseJson := fun _ =>
            Except.ok (Json.obj [("arguments", Json.obj [("query", Json.bool false)])]),
          unquote := fun _ => Except.error "no decode",
          kustoExec := fun _ _ _ _ => Except.error (KustoErr.generic "no engine"),
          jsonDumps := fun _ => "" }
        "ctx"
      = "Error: No query provided in the request"
    ∧ kusto_query
        { easyAuthToken := none, clusterUrl := none, databaseName := none,
          credGetToken := fun _ => Except.error "no cred",
          parseJson := fun _ =>
            Except.ok (Json.obj [("arguments", Json.obj [("query", Json.num 0)])]),
          unquote := fun _ => Except.error "no decode",
          kustoExec := fun _ _ _ _ => Except.error (KustoErr.generic "no engine"),
          jsonDumps := fun _ => "" }
        "ctx"
      = "Error: No query provided in the request" :=
  ⟨c10_kusto_falsy_query _ "ctx" [("arguments", Json.obj [("query", Json.str "")])]
      [("query", Json.str "")] (Json.str "") rfl rfl rfl rfl,
   c10_kusto_falsy_query _ "ctx" [("arguments", Json.obj [("query", Json.bool false)])]
      [("query", Json.bool false)] (Json.bool false) rfl rfl rfl rfl,
   c10_kusto_falsy_query _ "ctx" [("arguments", Json.obj [("query", Json.num 0)])]
      [("query", Json.num 0)] (Json.num 0) rfl rfl rfl rfl⟩

/-- C6: with a query provided, a missing `KUSTO_CLUSTER_URL` yields exactly
its descriptive error string, and a missing `KUSTO_DATABASE_NAME` yields
exactly its descriptive error string; in both cases the only effect performed
is the decode — no token is acquired and no remote call is attempted. -/
theorem c6_kusto_missing_config :
    ∀ (env : KustoEnv) (context : String) (fields args : List (String × Json)) (s : String),
      env.parseJson context = Except.ok (Json.obj fields) →
      (fields.lookup "arguments").getD (Json.obj []) = Json.obj args →
      args.lookup "query" = some (Json.str s) →
      s.isEmpty = false →
      (env.clusterUrl = none →
        kusto_query env context = "Error: KUSTO_CLUSTER_URL environment variable is not set"
        ∧ kustoQueryEffects env context = [KustoEffect.decodeQuery])
      ∧ (∀ u, env.clusterUrl = some u → u.isEmpty = false →
          env.databaseName = none →
          kusto_query env context = "Error: KUSTO_DATABASE_NAME environment variable is not set"
          ∧ kustoQueryEffects env context = [KustoEffect.decodeQuery]) := by
  intro env context fields args s h1 h2 h3 hs
  constructor
  · intro hcl
    constructor <;>
      simp [kusto_query, kustoQueryEffects, kustoQueryTry, h1, pyGetD, h2, h3, hs,
        truthy, hcl, optStrTruthy]
  · intro u hcl hu hdb
    constructor <;>
      simp [kusto_query, kustoQueryEffects, kustoQueryTry, h1, pyGetD, h2, h3, hs,
        truthy, hcl, hu, hdb, optStrTruthy]

/-- Witness for C6: one run with no cluster URL, one with a cluster URL but
no database name. -/
theorem c6_witness :
    kusto_query
        { easyAuthToken := none, clusterUrl := none, databaseName := none,
          credGetToken := fun _ => Except.error "no cred",
          parseJson := fun _ =>
            Except.ok (Json.obj [("arguments", Json.obj [("query", Json.str "T%20x")])]),
          unquote := fun _ => Except.ok "T x",
          kustoExec := fun _ _ _ _ => Except.error (KustoErr.generic "no engine"),
          jsonDumps := fun _ => "" }
        "ctx"
      = "Error: KUSTO_CLUSTER_URL environment variable is not set"
    ∧ kusto_query
        { easyAuthToken := none, clusterUrl := some "https://c.kusto.windows.net",
          databaseName := none,
          credGetToken := fun _ => Except.error "no cred",
          parseJson := fun _ =>
            Except.ok (Json.obj [("arguments", Json.obj [("query", Json.str "T%20x")])]),
          unquote := fun _ => Except.ok "T x",
          kustoExec := fun _ _ _ _ => Except.error (KustoErr.generic "no engine"),
          jsonDumps := fun _ => "" }
        "ctx"
      = "Error: KUSTO_DATABASE_NAME environment variable is not set"
    ∧ kustoQueryEffects
        { easyAuthToken := none, clusterUrl := none, databaseName := none,
          credGetToken := fun _ => Except.error "no cred",
          parseJson := fun _ =>
            Except.ok (Json.obj [("arguments", Json.obj [("query", Json.str "T%20x")])]),
          unquote := fun _ => Except.ok "T x",
          kustoExec := fun _ _ _ _ => Except.error (KustoErr.generic "no engine"),
          jsonDumps := fun _ => "" }
        "ctx"
      = [KustoEffect.decodeQuery] := by
  refine ⟨?_, ?_, ?_⟩
  · exact ((c6_kusto_missing_config _ "ctx"
      [("arguments", Json.obj [("query", Json.str "T%20x")])]
      [("query", Json.str "T%20x")] "T%20x" rfl rfl rfl rfl).1 rfl).1
  · exact ((c6_kusto_missing_config _ "ctx"
      [("arguments", Json.obj [("query", Json.str "T%20x")])]
      [("query", Json.str "T%20x")] "T%20x" rfl rfl rfl rfl).2
      "https://c.kusto.windows.net" rfl rfl rfl).1
  · exact ((c6_kusto_missing_config _ "ctx"
      [("arguments", Json.obj [("query", Json.str "T%20x")])]
      [("query", Json.str "T%20x")] "T%20x" rfl rfl rfl rfl).1 rfl).2

/-- C7: on the remote (non-EasyAuth) path with a 200 identity-graph
response, `who_am_i` formats the body's `displayName` (defaulting to
`"Unknown User"` when absent) with the `mail` field falling back to
`userPrincipalName` when `mail` is falsy. -/
theorem c7_whoami_remote_success :
    ∀ (env : WhoAmIEnv) (context : String) (fields args body : List (String × Json))
      (tok : String) (resp : HttpResponse),
      optStrTruthy env.easyAuthToken = false →
      env.parseJson context = Except.ok (Json.obj fields) →
      (fields.lookup "arguments").getD (Json.obj []) = Json.obj args →
      env.credGetToken graphScope = Except.ok tok →
      env.graphGet tok = Except.ok resp →
      resp.status_code = 200 →
      resp.jsonBody = Except.ok (Json.obj body) →
      who_am_i env context =
        format_user_info
          ((body.lookup "displayName").getD (Json.str "Unknown User"))
          (if truthy ((body.lookup "mail").getD Json.null)
            then (body.lookup "mail").getD Json.null
            else (body.lookup "userPrincipalName").getD Json.null)
          ((args.lookup "includeEmail").getD (Json.bool false)) := by
  intro env context fields args body tok resp hEasy h1 h2 hcred hget hstatus hbody
  simp [who_am_i, whoAmITry, h1, pyGetD, h2, hEasy, get_access_token,
    WhoAmIEnv.tokenEnv, hcred, hget, hstatus, hbody]

/-- Witness for C7: the claim's end-to-end example — a mocked graph returning
`displayName` Bob with `mail`, and `includeEmail` true, yields
`"Bob (b@y.com)"`. -/
theorem c7_witness :
    who_am_i
        { easyAuthToken := none, clientPrincipal := none,
          credGetToken := fun _ => Except.ok "graph-token",
          parseJson := fun _ =>
            Except.ok (Json.obj
              [("arguments", Json.obj [("includeEmail", Json.bool true)])]),
          b64decode := fun _ => Except.error "not used",
          graphGet := fun _ =>
            Except.ok
              { status_code := 200, text := "",
                jsonBody := Except.ok (Json.obj
                  [("displayName", Json.str "Bob"), ("mail", Json.str "b@y.com")]) } }
        "ctx"
      = "Bob (b@y.com)" := by
  have h := c7_whoami_remote_success
    { easyAuthToken := none, clientPrincipal := none,
      credGetToken := fun _ => Except.ok "graph-token",
      parseJson := fun _ =>
        Except.ok (Json.obj
          [("arguments", Json.obj [("includeEmail", Json.bool true)])]),
      b64decode := fun _ => Except.error "not used",
      graphGet := fun _ =>
        Except.ok
          { status_code := 200, text := "",
            jsonBody := Except.ok (Json.obj
              [("displayName", Json.str "Bob"), ("mail", Json.str "b@y.com")]) } }
    "ctx"
    [("arguments", Json.obj [("includeEmail", Json.bool true)])]
    [("includeEmail", Json.bool true)]
    [("displayName", Json.str "Bob"), ("mail", Json.str "b@y.com")]
    "graph-token"
    { status_code := 200, text := "",
      jsonBody := Except.ok (Json.obj
        [("displayName", Json.str "Bob"), ("mail", Json.str "b@y.com")]) }
    rfl rfl rfl rfl rfl rfl rfl
  simpa [format_user_info, truthy, pyStr] using h

/-- C8: on the EasyAuth path, an absent client-principal variable yields
exactly `"No user principal found in EasyAuth headers"`, and an exception
raised while base64-decoding or JSON-parsing the principal yields
`"Error determining user identity: <exception text>"`. -/
theorem c8_whoami_easyauth_errors :
    ∀ (env : WhoAmIEnv) (context : String) (fields args : List (String × Json)),
      optStrTruthy env.easyAuthToken = true →
      env.parseJson context = Except.ok (Json.obj fields) →
      (fields.lookup "arguments").getD (Json.obj []) = Json.obj args →
      (env.clientPrincipal = none →
        who_am_i env context = "No user principal found in EasyAuth headers")
      ∧ (∀ p e, env.clientPrincipal = some p → p.isEmpty = false →
          env.b64decode p = Except.error e →
          who_am_i env context = "Error determining user identity: " ++ e)
      ∧ (∀ p d e, env.clientPrincipal = some p → p.isEmpty = false →
          env.b64decode p = Except.ok d →
          env.parseJson d = Except.error e →
          who_am_i env context = "Error determining user identity: " ++ e) := by
  intro env context fields args hEasy h1 h2
  refine ⟨?_, ?_, ?_⟩
  · intro hp
    simp [who_am_i, whoAmITry, h1, pyGetD, h2, hEasy, hp]
  · intro p e hp hpe hb
    simp [who_am_i, whoAmITry, h1, pyGetD, h2, hEasy, hp, hpe, hb]
  · intro p d e hp hpe hb hpd
    simp [who_am_i, whoAmITry, h1, pyGetD, h2, hEasy, hp, hpe, hb, hpd]

/-- Witness for C8: the three EasyAuth failure modes at concrete inputs. -/
theorem c8_witness :
    who_am_i
        { easyAuthToken := some "ambient", clientPrincipal := none,
          credGetToken := fun _ => Except.error "not used",
          parseJson := fun _ => Except.ok (Json.obj []),
          b64decode := fun _ => Except.error "not used",
          graphGet := fun _ => Except.error "not used" }
        "ctx"
      = "No user principal found in EasyAuth headers"
    ∧ who_am_i
        { easyAuthToken := some "ambient", clientPrincipal := some "!!",
          credGetToken := fun _ => Except.error "not used",
          parseJson := fun _ => Except.ok (Json.obj []),
          b64decode := fun _ => Except.error "Invalid base64-encoded string",
          graphGet := fun _ => Except.error "not used" }
        "ctx"
      = "Error determining user identity: Invalid base64-encoded string"
    ∧ who_am_i
        { easyAuthToken := some "ambient", clientPrincipal := some "bm90anNvbg==",
          credGetToken := fun _ => Except.error "not used",
          parseJson := fun s =>
            if s = "notjson" then Except.error "Expecting value: line 1 column 1"
            else Except.ok (Json.obj []),
          b64decode := fun _ => Except.ok "notjson",
          graphGet := fun _ => Except.error "not used" }
        "ctx"
      = "Error determining user identity: Expecting value: line 1 column 1" := by
  refine ⟨?_, ?_, ?_⟩
  · exact (c8_whoami_easyauth_errors
      { easyAuthToken := some "ambient", clientPrincipal := none,
        credGetToken := fun _ => Except.error "not used",
        parseJson := fun _ => Except.ok (Json.obj []),
        b64decode := fun _ => Except.error "not used",
        graphGet := fun _ => Except.error "not used" }
      "ctx" [] [] rfl rfl rfl).1 rfl
  · exact (c8_whoami_easyauth_errors
      { easyAuthToken := some "ambient", clientPrincipal := some "!!",
        credGetToken := fun _ => Except.error "not used",
        parseJson := fun _ => Except.ok (Json.obj []),
        b64decode := fun _ => Except.error "Invalid base64-encoded string",
        graphGet := fun _ => Except.error "not used" }
      "ctx" [] [] rfl rfl rfl).2.1
      "!!" "Invalid base64-encoded string" rfl rfl rfl
  · exact (c8_whoami_easyauth_errors
      { easyAuthToken := some "ambient", clientPrincipal := some "bm90anNvbg==",
        credGetToken := fun _ => Except.error "not used",
        parseJson := fun s =>
          if s = "notjson" then Except.error "Expecting value: line 1 column 1"
          else Except.ok (Json.obj []),
        b64decode := fun _ => Except.ok "notjson",
        graphGet := fun _ => Except.error "not used" }
      "ctx" [] [] rfl rfl rfl).2.2
      "bm90anNvbg==" "notjson" "Expecting value: line 1 column 1" rfl rfl rfl
      (by simp)

/-- C2: when the argument bag of the (spec-modelled)
`getRecentActiveFunctionApps` handler lacks `subscriptionId`, it returns
exactly `"Error: subscriptionId parameter is required"`. -/
theorem c2_missing_subscription :
    ∀ (env : FuncAppsEnv) (context : String) (fields args : List (String × Json)),
      env.parseJson context = Except.ok (Json.obj fields) →
      (fields.lookup "arguments").getD (Json.obj []) = Json.obj args →
      args.lookup "subscriptionId" = none →
      get_recent_active_function_apps env context
        = "Error: subscriptionId parameter is required" := by
  intro env context fields args h1 h2 h3
  simp [get_recent_active_function_apps, h1, objGetD, h2, h3, truthy]

/-- Witness for C2: a concrete envelope whose argument bag has a time range
and a limit but no `subscriptionId`. -/
theorem c2_witness :
    get_recent_active_function_apps
        { parseJson := fun _ =>
            Except.ok (Json.obj
              [("arguments", Json.obj
                [("timeRange", Json.str "24h"), ("limit", Json.str "-5")])]),
          timeRangeParse := fun _ => "2026-10-05T00:00:00.000Z",
          queryExecute := fun _ => "[]" }
        "ctx"
      = "Error: subscriptionId parameter is required" :=
  c2_missing_subscription
    { parseJson := fun _ =>
        Except.ok (Json.obj
          [("arguments", Json.obj
            [("timeRange", Json.str "24h"), ("limit", Json.str "-5")])]),
      timeRangeParse := fun _ => "2026-10-05T00:00:00.000Z",
      queryExecute := fun _ => "[]" }
    "ctx"
    [("arguments", Json.obj
      [("timeRange", Json.str "24h"), ("limit", Json.str "-5")])]
    [("timeRange", Json.str "24h"), ("limit", Json.str "-5")]
    rfl rfl rfl
